import Mathlib

/-!
Verification of the indexed query engine `EfficientDataProcessor`
(`src/utils/efficientDataProcessor.ts`): a shallow embedding of the data
model, index construction, pre-sorted orders, search, filtering and
pagination, together with theorems settling the specification's claims.

Modelling conventions:
* Record ids are the positions `0 .. n-1` in the backing array, as in the
  source.  JavaScript `Map<string, Set<number>>` buckets are represented by
  their contents in ascending id order (the order `forEach` inserts them);
  a key absent from a map corresponds to an empty bucket.
* `new Date(s).getTime()` is modelled by `jsGetTime`, returning `none` for
  `NaN` (invalid date).  The concrete parser accepts digit strings; the
  engine's behaviour depends only on parsability and relative order of the
  parsed values, never on the host's exact date grammar.
* `String.prototype.localeCompare` and the string `<`/`>` comparisons of
  `sortVulnerabilities` are modelled by the total order `jsStrCmp`; the
  claims depend only on it being a total order.
* `Array.prototype.sort` is a stable sort.  It is modelled by Mathlib's
  `List.insertionSort` with the relation `comparator ≤ 0`, which is a
  stable sort for the same comparator.
* `performance.now()` readings are explicit `Clock` inputs of `search`.
-/

/-- Direction argument of `search`; the TypeScript type is `'asc' | 'desc'`. -/
inductive SortDir where
  | asc
  | desc
deriving DecidableEq

/-- One record of the backing array.  The four text fields and the two
categorical fields are plain strings; `published` and `fixDate` are optional
(the source guards them with `|| ''`). -/
structure OptimizedVulnerability where
  cve : String
  imageName : String
  repoName : String
  description : String
  severity : String
  kaiStatus : String
  published : Option String
  fixDate : Option String
deriving DecidableEq

/-- Record used as the `getD` default for id lookups.  Ids are always drawn
from `range n`, so this value is never observed by the engine; its dates are
chosen parsable so that the date comparators are total preorders on all of
`Nat`. -/
def dummyVuln : OptimizedVulnerability :=
  { cve := "", imageName := "", repoName := "", description := "",
    severity := "", kaiStatus := "", published := some "0", fixDate := some "0" }

/-- `this.vulnerabilities[id]` for an id produced by the engine. -/
def vAt (vulns : List OptimizedVulnerability) (i : Nat) : OptimizedVulnerability :=
  vulns.getD i dummyVuln

/-- Splits a character list at every space character, keeping empty pieces,
exactly as JavaScript `s.split(' ')` does; `acc` holds the reversed current
piece. -/
def splitSp : List Char → List Char → List (List Char)
  | [], acc => [acc.reverse]
  | c :: cs, acc => if c = ' ' then acc.reverse :: splitSp cs [] else splitSp cs (c :: acc)

/-- Models `s.toLowerCase()`. -/
def jsToLower (s : String) : String := String.mk (s.data.map Char.toLower)

/-- Models `s.split(' ')` on a JavaScript string. -/
def jsSplit (s : String) : List String := (splitSp s.data []).map String.mk

/-- The tokens of the search string of one record: the four text fields are
lowercased, joined with single spaces, split on spaces, and empty pieces are
dropped (`if (term.length > 0)` in `buildIndexes`). -/
def tokensOf (v : OptimizedVulnerability) : List String :=
  (jsSplit (jsToLower v.cve ++ " " ++ jsToLower v.imageName ++ " " ++
    jsToLower v.repoName ++ " " ++ jsToLower v.description)).filter
    (fun t => t.length > 0)

/-- Models `searchTerm.toLowerCase().split(' ').filter(term => term.length > 0)`
from `passesFilters`. -/
def termTokens (searchTerm : String) : List String :=
  (jsSplit (jsToLower searchTerm)).filter (fun t => t.length > 0)

/-- Models `new Date(s).getTime()`, with `none` standing for `NaN`.  Digit
strings parse to their numeric value, everything else (including `""`) is
invalid. -/
def jsGetTime (s : String) : Option Int :=
  if s.data = [] then none
  else if s.data.all Char.isDigit then
    some (Int.ofNat (s.data.foldl (fun n c => 10 * n + (c.toNat - 48)) 0))
  else none

/-- Models `new Date(v.published || '').getTime()` / the same for `fixDate`. -/
def timeOf (d : Option String) : Option Int := jsGetTime (d.getD "")

/-- Models JavaScript number subtraction `a - b` as consumed by
`Array.prototype.sort`: a `NaN` operand makes the comparator return `NaN`,
which `SortCompare` treats as `+0`. -/
def jsSub (a b : Option Int) : Int :=
  match a, b with
  | some x, some y => x - y
  | _, _ => 0

/-- Total order on strings modelling both `localeCompare` and the `<`/`>`
string comparisons: negative, zero or positive. -/
def jsStrCmp (a b : String) : Int :=
  if a < b then -1 else if b < a then 1 else 0

/-- The rank table `{critical: 4, high: 3, medium: 2, low: 1}` with
`|| 0` for any other value. -/
def severityRank (s : String) : Int :=
  if s = "critical" then 4
  else if s = "high" then 3
  else if s = "medium" then 2
  else if s = "low" then 1
  else 0

/-! ## Index structures

Each `Map<string, Set<number>>` of the processor is modelled by the function
from key to bucket contents; buckets list ids in ascending order, matching
insertion order of the `forEach` loop in `buildIndexes`. -/

/-- Bucket of the inverted search index for token `t`. -/
def searchBucket (vulns : List OptimizedVulnerability) (t : String) : List Nat :=
  (List.range vulns.length).filter (fun i => decide (t ∈ tokensOf (vAt vulns i)))

/-- Bucket of the severity index for exact (case-sensitive) value `s`. -/
def severityBucket (vulns : List OptimizedVulnerability) (s : String) : List Nat :=
  (List.range vulns.length).filter (fun i => decide ((vAt vulns i).severity = s))

/-- Bucket of the package index (keyed by `imageName`). -/
def packageBucket (vulns : List OptimizedVulnerability) (s : String) : List Nat :=
  (List.range vulns.length).filter (fun i => decide ((vAt vulns i).imageName = s))

/-- Bucket of the repo index (keyed by `repoName`). -/
def repoBucket (vulns : List OptimizedVulnerability) (s : String) : List Nat :=
  (List.range vulns.length).filter (fun i => decide ((vAt vulns i).repoName = s))

/-- Bucket of the kaiStatus index. -/
def kaiStatusBucket (vulns : List OptimizedVulnerability) (s : String) : List Nat :=
  (List.range vulns.length).filter (fun i => decide ((vAt vulns i).kaiStatus = s))

/-! ## Pre-sorted id arrays -/

/-- The comparator stored for key `field ++ "-" ++ direction` in
`buildPreSortedArrays`, transcribed case by case from the source.  Dates are
compared by subtracting `getTime()` values (`jsSub` collapses `NaN` to `0`
exactly as `SortCompare` does), severities by rank difference, and `cve` /
`kaiStatus` by `localeCompare`.  The catch-all `0` is unreachable:
`preSortedGet` only applies this function to the five indexed fields. -/
def preCmp (vulns : List OptimizedVulnerability) (field : String) (dir : SortDir)
    (a b : Nat) : Int :=
  match field, dir with
  | "published", SortDir.desc =>
      jsSub (timeOf (vAt vulns b).published) (timeOf (vAt vulns a).published)
  | "published", SortDir.asc =>
      jsSub (timeOf (vAt vulns a).published) (timeOf (vAt vulns b).published)
  | "cve", SortDir.asc => jsStrCmp (vAt vulns a).cve (vAt vulns b).cve
  | "cve", SortDir.desc => jsStrCmp (vAt vulns b).cve (vAt vulns a).cve
  | "severity", SortDir.desc =>
      severityRank (vAt vulns b).severity - severityRank (vAt vulns a).severity
  | "severity", SortDir.asc =>
      severityRank (vAt vulns a).severity - severityRank (vAt vulns b).severity
  | "fixDate", SortDir.desc =>
      jsSub (timeOf (vAt vulns b).fixDate) (timeOf (vAt vulns a).fixDate)
  | "fixDate", SortDir.asc =>
      jsSub (timeOf (vAt vulns a).fixDate) (timeOf (vAt vulns b).fixDate)
  | "kaiStatus", SortDir.asc => jsStrCmp (vAt vulns a).kaiStatus (vAt vulns b).kaiStatus
  | "kaiStatus", SortDir.desc => jsStrCmp (vAt vulns b).kaiStatus (vAt vulns a).kaiStatus
  | _, _ => 0

/-- `[...allIndices].sort(cmp)` for one pre-sorted key: a stable sort of
`0 .. n-1` under the comparator, modelled by `insertionSort` with
`cmp a b ≤ 0`. -/
def preSortedFor (vulns : List OptimizedVulnerability) (field : String) (dir : SortDir) :
    List Nat :=
  List.insertionSort (fun a b => preCmp vulns field dir a b ≤ 0)
    (List.range vulns.length)

/-- The five field names for which `buildPreSortedArrays` stores both
directions. -/
def supportedSortFields : List String :=
  ["published", "cve", "severity", "fixDate", "kaiStatus"]

/-- Models `this.preSortedIds.get(sortField + "-" + sortDirection)` on the
fully built map: the map holds exactly the ten keys `f ++ "-" ++ d` with `f`
a supported field and `d` either direction, and since the direction argument
is one of `asc`/`desc`, the composite key is present iff `sortField` is one
of the five supported fields. -/
def preSortedGet (vulns : List OptimizedVulnerability) (field : String) (dir : SortDir) :
    Option (List Nat) :=
  if field ∈ supportedSortFields then some (preSortedFor vulns field dir) else none

/-! ## Engine state

The engine's mutable state is its backing array plus whether the deferred
`buildIndexes` task has run.  The constructor stores the array and schedules
the build (via `requestIdleCallback` or a zero-delay timeout) without
awaiting it; until the task runs, every index map and the pre-sorted map are
the initial empty `Map`s. -/

structure EngineState where
  vulnerabilities : List OptimizedVulnerability
  built : Bool
deriving DecidableEq

/-- The constructor body: `this.vulnerabilities = vulnerabilities;
this.buildIndexesAsync();` — it returns immediately with the build pending
and performs no validation. -/
def newProcessor (vulns : List OptimizedVulnerability) : EngineState :=
  { vulnerabilities := vulns, built := false }

/-- Completion of the deferred `buildIndexes` task: all indexes and
pre-sorted arrays (deterministic functions of the array, defined above)
become visible. -/
def buildIndexes (st : EngineState) : EngineState :=
  { st with built := true }

/-- An engine on which the deferred build has completed. -/
def builtProcessor (vulns : List OptimizedVulnerability) : EngineState :=
  buildIndexes (newProcessor vulns)

/-- `this.searchIndex.get(t)` contents (empty until the build has run). -/
def EngineState.searchIdx (st : EngineState) (t : String) : List Nat :=
  if st.built then searchBucket st.vulnerabilities t else []

/-- `this.severityIndex.get(s)` contents. -/
def EngineState.severityIdx (st : EngineState) (s : String) : List Nat :=
  if st.built then severityBucket st.vulnerabilities s else []

/-- `this.packageIndex.get(s)` contents. -/
def EngineState.packageIdx (st : EngineState) (s : String) : List Nat :=
  if st.built then packageBucket st.vulnerabilities s else []

/-- `this.repoIndex.get(s)` contents. -/
def EngineState.repoIdx (st : EngineState) (s : String) : List Nat :=
  if st.built then repoBucket st.vulnerabilities s else []

/-- `this.kaiStatusIndex.get(s)` contents. -/
def EngineState.kaiStatusIdx (st : EngineState) (s : String) : List Nat :=
  if st.built then kaiStatusBucket st.vulnerabilities s else []

/-- `this.preSortedIds.get(...)` (the map is empty until the build has run). -/
def EngineState.preSorted (st : EngineState) (field : String) (dir : SortDir) :
    Option (List Nat) :=
  if st.built then preSortedGet st.vulnerabilities field dir else none

/-- `this.searchIndex.size + ... + this.kaiStatusIndex.size` — the number of
distinct keys of each map — times 8 (`getMemoryUsage`). -/
def getMemoryUsage (st : EngineState) : Nat :=
  (if st.built then
      (st.vulnerabilities.flatMap tokensOf).dedup.length +
      (st.vulnerabilities.map (·.severity)).dedup.length +
      (st.vulnerabilities.map (·.imageName)).dedup.length +
      (st.vulnerabilities.map (·.repoName)).dedup.length +
      (st.vulnerabilities.map (·.kaiStatus)).dedup.length
    else 0) * 8

/-! ## On-demand sorting (`sortVulnerabilities`) -/

/-- The final comparison step shared by every `case` of
`sortVulnerabilities`: `if (aValue < bValue) return asc ? -1 : 1;
if (aValue > bValue) return asc ? 1 : -1; return 0`. -/
def cmpVals (lt gt : Bool) (dir : SortDir) : Int :=
  if lt then (match dir with | SortDir.asc => -1 | SortDir.desc => 1)
  else if gt then (match dir with | SortDir.asc => 1 | SortDir.desc => -1)
  else 0

/-- JavaScript `<` on two `getTime()` results: any comparison against `NaN`
is false. -/
def optLt (a b : Option Int) : Bool :=
  match a, b with
  | some x, some y => decide (x < y)
  | _, _ => false

/-- The comparator of `sortVulnerabilities`, transcribed from its `switch`:
strings are compared with `<`/`>`, severities via the rank table, dates via
`getTime()` values, and an unknown `sortField` hits the `default: return 0`
branch. -/
def svCmp (a b : OptimizedVulnerability) (field : String) (dir : SortDir) : Int :=
  match field with
  | "cve" => cmpVals (decide (a.cve < b.cve)) (decide (b.cve < a.cve)) dir
  | "severity" =>
      cmpVals (decide (severityRank a.severity < severityRank b.severity))
        (decide (severityRank b.severity < severityRank a.severity)) dir
  | "published" =>
      cmpVals (optLt (timeOf a.published) (timeOf b.published))
        (optLt (timeOf b.published) (timeOf a.published)) dir
  | "fixDate" =>
      cmpVals (optLt (timeOf a.fixDate) (timeOf b.fixDate))
        (optLt (timeOf b.fixDate) (timeOf a.fixDate)) dir
  | "kaiStatus" => cmpVals (decide (a.kaiStatus < b.kaiStatus)) (decide (b.kaiStatus < a.kaiStatus)) dir
  | _ => 0

/-- `[...vulnerabilities].sort(comparator)`: a stable sort of the records
under `svCmp`. -/
def sortVulnerabilities (vs : List OptimizedVulnerability) (field : String)
    (dir : SortDir) : List OptimizedVulnerability :=
  List.insertionSort (fun a b => svCmp a b field dir ≤ 0) vs

/-! ## Query argument and result types -/

/-- The arguments of one `search(...)` call. -/
structure Query where
  searchTerm : String
  severityFilter : String
  packageFilter : String
  repoFilter : String
  kaiStatusFilter : String
  page : Nat
  pageSize : Nat
  sortField : String
  sortDirection : SortDir
deriving DecidableEq

/-- The two `performance.now()` readings taken by one `search` call. -/
structure Clock where
  startTime : Int
  endTime : Int
deriving DecidableEq

/-- The `ProcessingStats` interface. -/
structure ProcessingStats where
  totalCount : Nat
  filteredCount : Nat
  processingTime : Int
  memoryUsage : Nat
deriving DecidableEq

/-- The return value of `search`. -/
structure SearchResult where
  results : List OptimizedVulnerability
  totalCount : Nat
  stats : ProcessingStats
deriving DecidableEq

/-! ## Filtering, pagination and `search` -/

/-- `passesFilters(id, searchTerm, severityFilter, packageFilter, repoFilter,
kaiStatusFilter)`, transcribed from the source: a non-empty term is
lowercased and split; a single word must have `id` in its bucket; with
several words every word's bucket must contain `id` (an absent key is an
empty bucket and fails).  Each non-empty categorical filter then requires
`id` in the corresponding exact-value bucket. -/
def passesFilters (st : EngineState) (id : Nat) (searchTerm severityFilter
    packageFilter repoFilter kaiStatusFilter : String) : Bool :=
  (if searchTerm = "" then true
   else
     match termTokens searchTerm with
     | [t] => decide (id ∈ st.searchIdx t)
     | ts => ts.all (fun t => decide (id ∈ st.searchIdx t))) &&
  (decide (severityFilter = "") || decide (id ∈ st.severityIdx severityFilter)) &&
  (decide (packageFilter = "") || decide (id ∈ st.packageIdx packageFilter)) &&
  (decide (repoFilter = "") || decide (id ∈ st.repoIdx repoFilter)) &&
  (decide (kaiStatusFilter = "") || decide (id ∈ st.kaiStatusIdx kaiStatusFilter))

/-- `filterAndPaginate`: keep the ids passing all filters, slice
`[page*pageSize, page*pageSize + pageSize)`, map ids back to records, and
assemble the result with its stats.  `search`'s pre-sorted branch inlines
this exact computation; the embedding shares the definition. -/
def filterAndPaginate (st : EngineState) (sortedIndices : List Nat) (q : Query)
    (clock : Clock) : SearchResult :=
  let visibleIds := sortedIndices.filter (fun id =>
    passesFilters st id q.searchTerm q.severityFilter q.packageFilter
      q.repoFilter q.kaiStatusFilter)
  let startIndex := q.page * q.pageSize
  let paginatedIds := (visibleIds.drop startIndex).take q.pageSize
  { results := paginatedIds.map (vAt st.vulnerabilities),
    totalCount := visibleIds.length,
    stats := { totalCount := st.vulnerabilities.length,
               filteredCount := visibleIds.length,
               processingTime := clock.endTime - clock.startTime,
               memoryUsage := getMemoryUsage st } }

/-- The fallback branch of `search`, transcribed with its index-mapping slip:
`sortVulnerabilities(allIndices.map(i => vulns[i]), field, dir)
  .map((_, index) => allIndices[index])` — the sorted records are discarded
and the positional map returns `allIndices` itself. -/
def fallbackIds (st : EngineState) (q : Query) : List Nat :=
  let allIndices := List.range st.vulnerabilities.length
  ((sortVulnerabilities (allIndices.map (vAt st.vulnerabilities)) q.sortField
      q.sortDirection).enum).map (fun p => allIndices.getD p.1 0)

/-- The id sequence `search` filters: the pre-sorted array when
`preSortedIds` has the requested key, otherwise the fallback sequence. -/
def sortedIdsOf (st : EngineState) (q : Query) : List Nat :=
  match st.preSorted q.sortField q.sortDirection with
  | some pre => pre
  | none => fallbackIds st q

/-- `search(...)`: both branches filter their id sequence, paginate and
assemble identical result records, so the whole body is
`filterAndPaginate` applied to `sortedIdsOf`. -/
def search (st : EngineState) (q : Query) (clock : Clock) : SearchResult :=
  filterAndPaginate st (sortedIdsOf st q) q clock

/-- The ordered, filtered id list of a query, before pagination. -/
def visibleIdsOf (st : EngineState) (q : Query) : List Nat :=
  (sortedIdsOf st q).filter (fun id =>
    passesFilters st id q.searchTerm q.severityFilter q.packageFilter
      q.repoFilter q.kaiStatusFilter)

/-- Stable order refinement. -/
def lexRel (r : Nat → Nat → Prop) (a b : Nat) : Prop := r a b ∧ (r b a → a < b)

/-! ## The brute-force reference oracle -/

/-- Modelled from the spec: the reference oracle used by the testable
properties — a linear scan keeps a record iff every token of the lowercased
term occurs among the record's tokens (an empty term always matches) and
each non-empty categorical filter equals the record's exact field value. -/
def bruteMatches (v : OptimizedVulnerability) (searchTerm severityFilter
    packageFilter repoFilter kaiStatusFilter : String) : Bool :=
  (decide (searchTerm = "") ||
    (termTokens searchTerm).all (fun t => decide (t ∈ tokensOf v))) &&
  (decide (severityFilter = "") || decide (v.severity = severityFilter)) &&
  (decide (packageFilter = "") || decide (v.imageName = packageFilter)) &&
  (decide (repoFilter = "") || decide (v.repoName = repoFilter)) &&
  (decide (kaiStatusFilter = "") || decide (v.kaiStatus = kaiStatusFilter))

/-! ## Concrete example data for witnesses and counterexamples -/

def exV1 : OptimizedVulnerability :=
  { cve := "CVE-1", imageName := "nginx", repoName := "core",
    description := "overflow bug", severity := "critical", kaiStatus := "open",
    published := some "5", fixDate := some "7" }

def exV2 : OptimizedVulnerability :=
  { cve := "CVE-2", imageName := "redis", repoName := "cache",
    description := "heap issue", severity := "low", kaiStatus := "fixed",
    published := some "3", fixDate := none }

def exV3 : OptimizedVulnerability :=
  { cve := "CVE-3", imageName := "nginx", repoName := "core",
    description := "race condition", severity := "critical", kaiStatus := "open",
    published := some "9", fixDate := some "1" }

def exVulns : List OptimizedVulnerability := [exV1, exV2, exV3]

def exQuery : Query :=
  { searchTerm := "", severityFilter := "", packageFilter := "", repoFilter := "",
    kaiStatusFilter := "", page := 0, pageSize := 50, sortField := "published",
    sortDirection := SortDir.desc }

def exClock : Clock := { startTime := 0, endTime := 1 }

/-! ## Claim C5 -/

/-- Raw input record as handed to the constructor before any field access:
every field may be missing (`undefined`). -/
structure RawVulnerability where
  cve : Option String
  imageName : Option String
  repoName : Option String
  description : Option String
  severity : Option String
  kaiStatus : Option String
  published : Option String
  fixDate : Option String
deriving DecidableEq

/-- The spec's fatal construction-error class, kept abstract as a message;
the source defines no such class. -/
def ConstructionError : Type := String

/-- Engine state over raw records. -/
structure RawEngineState where
  vulnerabilities : List RawVulnerability
  built : Bool
deriving DecidableEq

/-- The constructor body over raw records: `this.vulnerabilities =
vulnerabilities; this.buildIndexesAsync();` — it stores the array, schedules
the deferred build and returns at once; it contains no validation and no
throw statement, so it succeeds on every input. -/
def constructProcessor (vulns : List RawVulnerability) :
    Except ConstructionError RawEngineState :=
  Except.ok { vulnerabilities := vulns, built := false }

/-- The deferred `buildIndexes` body over raw records: every record receives
`.toLowerCase()` calls on `cve`, `imageName`, `repoName` and `description`,
so a missing value there raises a `TypeError`; `severity` and `kaiStatus`
are only used as map keys in `buildIndexes`, which never raises, but with
two or more records `buildPreSortedArrays` calls `.localeCompare()` on every
record's `cve` and `kaiStatus` (`cve` being already covered); the date
fields are guarded by `|| ''` and never raise. -/
def buildIndexesRaw (vulns : List RawVulnerability) : Except String Unit :=
  if (vulns.all fun v => v.cve.isSome && v.imageName.isSome && v.repoName.isSome &&
        v.description.isSome) &&
      (decide (vulns.length ≤ 1) || vulns.all fun v => v.kaiStatus.isSome)
  then Except.ok ()
  else Except.error "TypeError"

/-- A structurally invalid raw record: its description (and date fields) are
missing entirely. -/
def exRawInvalid : RawVulnerability :=
  { cve := some "CVE-9", imageName := some "img", repoName := some "repo",
    description := none, severity := some "low", kaiStatus := some "open",
    published := none, fixDate := none }

/-- A raw record missing only the optional date fields. -/
def exRawMissingDates : RawVulnerability :=
  { cve := some "CVE-8", imageName := some "img", repoName := some "repo",
    description := some "desc", severity := some "low", kaiStatus := some "open",
    published := none, fixDate := none }

/-- Stable monotonicity of an id sequence under a comparator: no later
element is ordered strictly before an earlier one, and tied elements appear
in ingestion (id) order. -/
abbrev stablySorted (cmp : Nat → Nat → Int) (l : List Nat) : Prop :=
  l.Pairwise (fun a b => cmp a b ≤ 0 ∧ (cmp b a ≤ 0 → a < b))

/-- Modelled from the spec: the declared descending published-date
comparator in which a missing or unparsable date counts as epoch `0`
(earliest, hence last in descending order). -/
def specEpochCmpPublishedDesc (vulns : List OptimizedVulnerability) (a b : Nat) : Int :=
  ((timeOf (vAt vulns b).published).getD 0) - ((timeOf (vAt vulns a).published).getD 0)

/-- Records for the C3 counterexample: the first record's published date is
missing, the other two parse. -/
def exVulnsC3 : List OptimizedVulnerability :=
  [{ cve := "CVE-A", imageName := "x", repoName := "r", description := "d",
     severity := "low", kaiStatus := "open", published := none, fixDate := none },
   { cve := "CVE-B", imageName := "x", repoName := "r", description := "d",
     severity := "low", kaiStatus := "open", published := some "5", fixDate := none },
   { cve := "CVE-C", imageName := "x", repoName := "r", description := "d",
     severity := "low", kaiStatus := "open", published := some "3", fixDate := none }]

-- sanity checks (concrete behaviour of the token pipeline)
example : termTokens "CVE-2 Database" = ["cve-2", "database"] := by decide
example : termTokens "  " = [] := by decide
example : jsGetTime "" = none := by decide
example : jsGetTime "15" = some 15 := by decide
example : jsGetTime "2024-01-01" = none := by decide

/-! ## Properties of the token splitter -/

/-- Pieces produced by the splitter never contain a space. -/
theorem splitSp_no_space : ∀ (cs acc : List Char), (' ' ∈ acc → False) →
    ∀ p ∈ splitSp cs acc, ' ' ∉ p
  | [], acc, h => by
      intro p hp
      simp only [splitSp, List.mem_singleton] at hp
      subst hp
      simpa using h
  | c :: cs, acc, h => by
      intro p hp
      by_cases hc : c = ' '
      · rw [show splitSp (c :: cs) acc = acc.reverse :: splitSp cs [] by
          simp [splitSp, hc]] at hp
        rcases List.mem_cons.mp hp with hp1 | hp1
        · subst hp1; simpa using h
        · exact splitSp_no_space cs [] (by simp) p hp1
      · rw [show splitSp (c :: cs) acc = splitSp cs (c :: acc) by
          simp [splitSp, hc]] at hp
        refine splitSp_no_space cs (c :: acc) ?_ p hp
        intro hmem
        rcases List.mem_cons.mp hmem with h1 | h1
        · exact hc h1.symm
        · exact h h1

/-- On input without spaces the splitter returns a single piece. -/
theorem splitSp_of_no_space : ∀ (cs acc : List Char), (' ' ∈ cs → False) →
    splitSp cs acc = [acc.reverse ++ cs]
  | [], acc, _ => by simp [splitSp]
  | c :: cs, acc, h => by
      have hc : ¬ c = ' ' := fun e => h (by simp [e])
      simp only [splitSp, if_neg hc]
      rw [splitSp_of_no_space cs (c :: acc) (fun m => h (by simp [m]))]
      simp

/-- Every token in a record's index entry is non-empty and space-free. -/
theorem tokensOf_no_space {t : String} {v : OptimizedVulnerability}
    (h : t ∈ tokensOf v) : (' ' ∈ t.data → False) ∧ 0 < t.length := by
  unfold tokensOf jsSplit at h
  rcases List.mem_filter.mp h with ⟨hmem, hlen⟩
  rcases List.mem_map.mp hmem with ⟨p, hp, rfl⟩
  refine ⟨fun hsp => ?_, by simpa using hlen⟩
  exact splitSp_no_space _ [] (by simp) p hp hsp

/-- A space-free, non-empty lowercased term splits into exactly itself. -/
theorem termTokens_eq_self {term : String}
    (hsp : ' ' ∈ (jsToLower term).data → False) (hlen : 0 < (jsToLower term).length) :
    termTokens term = [jsToLower term] := by
  unfold termTokens jsSplit
  rw [splitSp_of_no_space _ [] hsp]
  simp only [List.reverse_nil, List.nil_append, List.map_cons, List.map_nil]
  have : String.mk (jsToLower term).data = jsToLower term := rfl
  rw [this]
  simp [List.filter, hlen]
theorem pairwise_orderedInsert_lex (r : Nat → Nat → Prop) [DecidableRel r]
    (total : ∀ a b, r a b ∨ r b a) (trans : ∀ a b c, r a b → r b c → r a c)
    (x : Nat) :
    ∀ (L : List Nat), (∀ y ∈ L, x < y) → L.Pairwise (lexRel r) →
      (L.orderedInsert r x).Pairwise (lexRel r)
  | [], _, _ => by simp [List.orderedInsert, List.pairwise_singleton]
  | y :: ys, hx, hL => by
      rw [List.orderedInsert]
      by_cases hxy : r x y
      · rw [if_pos hxy]
        rcases List.pairwise_cons.mp hL with ⟨hy, _⟩
        refine List.pairwise_cons.mpr ⟨?_, hL⟩
        intro b hb
        rcases List.mem_cons.mp hb with rfl | hb
        · exact ⟨hxy, fun _ => hx b (by simp)⟩
        · exact ⟨trans x y b hxy (hy b hb).1, fun _ => hx b (by simp [hb])⟩
      · rw [if_neg hxy]
        rcases List.pairwise_cons.mp hL with ⟨hy, hys⟩
        refine List.pairwise_cons.mpr
          ⟨?_, pairwise_orderedInsert_lex r total trans x ys
            (fun z hz => hx z (by simp [hz])) hys⟩
        intro b hb
        rcases (List.mem_orderedInsert r).mp hb with rfl | hb
        · exact ⟨(total b y).resolve_left hxy, fun hr => absurd hr hxy⟩
        · exact hy b hb

theorem pairwise_insertionSort_lex (r : Nat → Nat → Prop) [DecidableRel r]
    (total : ∀ a b, r a b ∨ r b a) (trans : ∀ a b c, r a b → r b c → r a c) :
    ∀ (l : List Nat), l.Pairwise (· < ·) →
      (List.insertionSort r l).Pairwise (lexRel r)
  | [], _ => by simp [List.insertionSort]
  | a :: l, h => by
      rw [List.insertionSort]
      rcases List.pairwise_cons.mp h with ⟨ha, hl⟩
      exact pairwise_orderedInsert_lex r total trans a _
        (fun y hy => ha y ((List.mem_insertionSort r).mp hy))
        (pairwise_insertionSort_lex r total trans l hl)

theorem pairwise_of_rel_all {α : Type} {R : α → α → Prop} (h : ∀ a b, R a b) :
    ∀ (l : List α), l.Pairwise R
  | [] => List.Pairwise.nil
  | a :: l => List.pairwise_cons.mpr ⟨fun b _ => h a b, pairwise_of_rel_all h l⟩

theorem insertionSort_of_rel_all {α : Type} {r : α → α → Prop} [DecidableRel r]
    (h : ∀ a b, r a b) (l : List α) : List.insertionSort r l = l :=
  List.Sorted.insertionSort_eq (pairwise_of_rel_all h l)
theorem length_filter_range_getD {α : Type} (d : α) (f : α → Bool) :
    ∀ (l : List α),
      ((List.range l.length).filter (fun i => f (l.getD i d))).length = (l.filter f).length
  | [] => by simp
  | a :: l => by
      rw [List.length_cons, List.range_succ_eq_map]
      rw [List.filter_cons]
      by_cases hfa : f a
      · simp only [List.getD_cons_zero, hfa, if_pos]
        rw [List.filter_map]
        simp only [List.length_cons, List.length_map]
        rw [show ((fun i => f ((a :: l).getD i d)) ∘ Nat.succ) = (fun i => f (l.getD i d)) from ?_]
        · rw [length_filter_range_getD d f l]
          simp [List.filter_cons, hfa]
        · funext i
          simp [List.getD_cons_succ]
      · simp only [List.getD_cons_zero, hfa, if_neg, Bool.false_eq_true, not_false_iff]
        rw [List.filter_map]
        simp only [List.length_map]
        rw [show ((fun i => f ((a :: l).getD i d)) ∘ Nat.succ) = (fun i => f (l.getD i d)) from ?_]
        · rw [length_filter_range_getD d f l]
          simp [List.filter_cons, hfa]
        · funext i
          simp [List.getD_cons_succ]

theorem flatMap_pages {α : Type} (ps : Nat) (l : List α) :
    ∀ K, ((List.range K).flatMap (fun i => ((l.drop (i * ps)).take ps))) = l.take (K * ps)
  | 0 => by simp
  | K + 1 => by
      rw [List.range_succ, List.flatMap_append, flatMap_pages ps l K]
      rw [Nat.succ_mul, List.take_add]
      simp

/-! ## Bucket membership -/

theorem mem_searchBucket {vulns : List OptimizedVulnerability} {t : String} {id : Nat} :
    id ∈ searchBucket vulns t ↔ id < vulns.length ∧ t ∈ tokensOf (vAt vulns id) := by
  simp [searchBucket, List.mem_filter, List.mem_range]

theorem mem_severityBucket {vulns : List OptimizedVulnerability} {s : String} {id : Nat} :
    id ∈ severityBucket vulns s ↔ id < vulns.length ∧ (vAt vulns id).severity = s := by
  simp [severityBucket, List.mem_filter, List.mem_range]

theorem mem_packageBucket {vulns : List OptimizedVulnerability} {s : String} {id : Nat} :
    id ∈ packageBucket vulns s ↔ id < vulns.length ∧ (vAt vulns id).imageName = s := by
  simp [packageBucket, List.mem_filter, List.mem_range]

theorem mem_repoBucket {vulns : List OptimizedVulnerability} {s : String} {id : Nat} :
    id ∈ repoBucket vulns s ↔ id < vulns.length ∧ (vAt vulns id).repoName = s := by
  simp [repoBucket, List.mem_filter, List.mem_range]

theorem mem_kaiStatusBucket {vulns : List OptimizedVulnerability} {s : String} {id : Nat} :
    id ∈ kaiStatusBucket vulns s ↔ id < vulns.length ∧ (vAt vulns id).kaiStatus = s := by
  simp [kaiStatusBucket, List.mem_filter, List.mem_range]

/-- On a built engine, an in-range id passes the index-based filters exactly
when the record itself satisfies the brute-force oracle. -/
theorem passesFilters_built_eq_brute {vulns : List OptimizedVulnerability}
    {id : Nat} (hid : id < vulns.length) (term sev pkg repo kai : String) :
    passesFilters (builtProcessor vulns) id term sev pkg repo kai =
      bruteMatches (vAt vulns id) term sev pkg repo kai := by
  have hsearch : ∀ t : String, decide (id ∈ (builtProcessor vulns).searchIdx t) =
      decide (t ∈ tokensOf (vAt vulns id)) := by
    intro t
    rw [show (builtProcessor vulns).searchIdx t = searchBucket vulns t from rfl]
    exact decide_eq_decide.mpr (by rw [mem_searchBucket]; exact and_iff_right hid)
  have hsev : decide (id ∈ (builtProcessor vulns).severityIdx sev) =
      decide ((vAt vulns id).severity = sev) := by
    rw [show (builtProcessor vulns).severityIdx sev = severityBucket vulns sev from rfl]
    exact decide_eq_decide.mpr (by rw [mem_severityBucket]; exact and_iff_right hid)
  have hpkg : decide (id ∈ (builtProcessor vulns).packageIdx pkg) =
      decide ((vAt vulns id).imageName = pkg) := by
    rw [show (builtProcessor vulns).packageIdx pkg = packageBucket vulns pkg from rfl]
    exact decide_eq_decide.mpr (by rw [mem_packageBucket]; exact and_iff_right hid)
  have hrepo : decide (id ∈ (builtProcessor vulns).repoIdx repo) =
      decide ((vAt vulns id).repoName = repo) := by
    rw [show (builtProcessor vulns).repoIdx repo = repoBucket vulns repo from rfl]
    exact decide_eq_decide.mpr (by rw [mem_repoBucket]; exact and_iff_right hid)
  have hkai : decide (id ∈ (builtProcessor vulns).kaiStatusIdx kai) =
      decide ((vAt vulns id).kaiStatus = kai) := by
    rw [show (builtProcessor vulns).kaiStatusIdx kai = kaiStatusBucket vulns kai from rfl]
    exact decide_eq_decide.mpr (by rw [mem_kaiStatusBucket]; exact and_iff_right hid)
  unfold passesFilters bruteMatches
  by_cases hterm : term = ""
  · simp [hterm, hsev, hpkg, hrepo, hkai]
  · rw [if_neg hterm]
    have hdec : decide (term = "") = false := by simp [hterm]
    rw [hdec]
    cases hts : termTokens term with
    | nil => simp [hsearch, hsev, hpkg, hrepo, hkai]
    | cons t ts =>
        cases ts with
        | nil => simp [hsearch, hsev, hpkg, hrepo, hkai]
        | cons t2 ts2 => simp [hsearch, hsev, hpkg, hrepo, hkai]

/-! ## Claim C10 -/

/-- C10: for every search call (pre-sorted or fallback path alike), the
returned `stats.filteredCount` equals the returned `totalCount`, both equal
the length of the filtered candidate id list before pagination,
`stats.totalCount` equals the backing array's length, and none of these
change with the `page`/`pageSize` arguments. -/
theorem C10_counts_invariant (st : EngineState) (q : Query) (clock : Clock) :
    (search st q clock).stats.filteredCount = (search st q clock).totalCount ∧
    (search st q clock).totalCount = (visibleIdsOf st q).length ∧
    (search st q clock).stats.totalCount = st.vulnerabilities.length ∧
    ∀ p s : Nat,
      (search st { q with page := p, pageSize := s } clock).totalCount =
        (search st q clock).totalCount ∧
      (search st { q with page := p, pageSize := s } clock).stats.filteredCount =
        (search st q clock).stats.filteredCount := by
  exact ⟨rfl, rfl, rfl, fun p s => ⟨rfl, rfl⟩⟩

/-! ## Claim C9 -/

/-- C9 counterexample: the same query on engines built from the same array
yields results differing in `stats.processingTime` when the two calls
observe different wall-clock readings, so the full `QueryResult`s are not
byte-identical. -/
theorem C9_counterexample :
    search (builtProcessor exVulns) exQuery { startTime := 0, endTime := 1 } ≠
      search (builtProcessor exVulns) exQuery { startTime := 0, endTime := 2 } := by
  intro h
  have := congrArg (fun r => r.stats.processingTime) h
  simp [search, filterAndPaginate] at this

/-- C9 amended: identical input arrays and identical queries yield
byte-identical results in every component except `stats.processingTime`,
which is the elapsed wall-clock time of the call. -/
theorem C9_deterministic_except_time (vulns : List OptimizedVulnerability)
    (q : Query) (c1 c2 : Clock) :
    (search (builtProcessor vulns) q c1).results =
      (search (builtProcessor vulns) q c2).results ∧
    (search (builtProcessor vulns) q c1).totalCount =
      (search (builtProcessor vulns) q c2).totalCount ∧
    (search (builtProcessor vulns) q c1).stats.totalCount =
      (search (builtProcessor vulns) q c2).stats.totalCount ∧
    (search (builtProcessor vulns) q c1).stats.filteredCount =
      (search (builtProcessor vulns) q c2).stats.filteredCount ∧
    (search (builtProcessor vulns) q c1).stats.memoryUsage =
      (search (builtProcessor vulns) q c2).stats.memoryUsage :=
  ⟨rfl, rfl, rfl, rfl, rfl⟩

/-! ## Claim C1 -/

/-- C1: the code violates the claim.  `search` is synchronous and never
awaits a readiness signal; before the deferred build has run, the index maps
are the initial empty maps, so the query `"cve-1"` silently returns an empty
page with `totalCount = 0`, while the same query on the built engine finds
the matching record. -/
theorem C1_prebuild_divergence :
    (search (newProcessor exVulns) { exQuery with searchTerm := "cve-1" } exClock).results
        = [] ∧
    (search (newProcessor exVulns) { exQuery with searchTerm := "cve-1" } exClock).totalCount
        = 0 ∧
    (search (builtProcessor exVulns) { exQuery with searchTerm := "cve-1" } exClock).results
        = [exV1] ∧
    (search (builtProcessor exVulns) { exQuery with searchTerm := "cve-1" } exClock).totalCount
        = 1 := by
  refine ⟨?_, ?_, ?_, ?_⟩ <;> decide

/-! ## Claim C2 -/

/-- C2: when the entire lowercased term exists as a token in the inverted
index, the candidate set before categorical filters is exactly that token's
bucket.  (Index tokens never contain a space, so such a term tokenizes to
the single whole token and the single-word lookup applies.) -/
theorem C2_whole_term (vulns : List OptimizedVulnerability) (term : String)
    (hterm : term ≠ "") (hkey : searchBucket vulns (jsToLower term) ≠ []) :
    ∀ id : Nat, passesFilters (builtProcessor vulns) id term "" "" "" "" =
      decide (id ∈ searchBucket vulns (jsToLower term)) := by
  obtain ⟨id0, hid0⟩ := List.exists_mem_of_ne_nil _ hkey
  obtain ⟨-, htok⟩ := mem_searchBucket.mp hid0
  obtain ⟨hsp, hlen⟩ := tokensOf_no_space htok
  have hts : termTokens term = [jsToLower term] := termTokens_eq_self hsp hlen
  intro id
  unfold passesFilters
  rw [if_neg hterm, hts]
  simp [EngineState.searchIdx, builtProcessor, buildIndexes, newProcessor]

/-- C2 witness: the term `"CVE-1"` lowercases to the indexed token
`"cve-1"`, and the candidate check coincides with that bucket. -/
theorem C2_whole_term_witness :
    passesFilters (builtProcessor exVulns) 0 "CVE-1" "" "" "" "" =
      decide (0 ∈ searchBucket exVulns (jsToLower "CVE-1")) :=
  C2_whole_term exVulns "CVE-1" (by decide) (by decide) 0

/-! ## Claim C8 -/

/-- C8: a term with more than one token requires every token's bucket to
contain the id (AND intersection), and any token absent from the index
empties the result page and zeroes `totalCount`, regardless of the other
tokens and filters. -/
theorem C8_multiword_and (vulns : List OptimizedVulnerability) (q : Query)
    (clock : Clock) (h2 : 1 < (termTokens q.searchTerm).length) :
    (∀ id : Nat, passesFilters (builtProcessor vulns) id q.searchTerm "" "" "" "" =
        (termTokens q.searchTerm).all (fun t => decide (id ∈ searchBucket vulns t))) ∧
    (∀ t ∈ termTokens q.searchTerm, searchBucket vulns t = [] →
      (search (builtProcessor vulns) q clock).results = [] ∧
      (search (builtProcessor vulns) q clock).totalCount = 0) := by
  have hterm : q.searchTerm ≠ "" := by
    intro e
    rw [e] at h2
    exact absurd h2 (by decide)
  constructor
  · intro id
    unfold passesFilters
    rw [if_neg hterm]
    cases hts : termTokens q.searchTerm with
    | nil => rw [hts] at h2; exact absurd h2 (by decide)
    | cons t ts =>
        cases ts with
        | nil => rw [hts] at h2; exact absurd h2 (by simp)
        | cons t2 ts2 =>
            simp [EngineState.searchIdx, builtProcessor, buildIndexes, newProcessor]
  · intro t0 ht0 hempty
    have hfail : ∀ id : Nat, passesFilters (builtProcessor vulns) id q.searchTerm
        q.severityFilter q.packageFilter q.repoFilter q.kaiStatusFilter = false := by
      intro id
      unfold passesFilters
      rw [if_neg hterm]
      cases hts : termTokens q.searchTerm with
      | nil => rw [hts] at h2; exact absurd h2 (by decide)
      | cons t ts =>
          cases ts with
          | nil => rw [hts] at h2; exact absurd h2 (by simp)
          | cons t2 ts2 =>
              apply Bool.eq_false_iff.mpr
              intro htrue
              simp only [Bool.and_eq_true] at htrue
              have hmem := List.all_eq_true.mp htrue.1.1.1.1 t0 (hts ▸ ht0)
              rw [show (builtProcessor vulns).searchIdx t0 = searchBucket vulns t0
                  from rfl, hempty] at hmem
              exact absurd (of_decide_eq_true hmem) (List.not_mem_nil id)
    have hv : visibleIdsOf (builtProcessor vulns) q = [] := by
      unfold visibleIdsOf
      rw [show (fun id => passesFilters (builtProcessor vulns) id q.searchTerm
          q.severityFilter q.packageFilter q.repoFilter q.kaiStatusFilter) =
          (fun _ => false) from funext hfail]
      exact List.filter_false _
    constructor
    · show (((visibleIdsOf (builtProcessor vulns) q).drop (q.page * q.pageSize)).take
        q.pageSize).map (vAt vulns) = []
      rw [hv]
      simp
    · show (visibleIdsOf (builtProcessor vulns) q).length = 0
      rw [hv]
      rfl

/-- C8 witness: the spec's scenario — term `"cve-2 database"` with no record
containing the token `"database"` gives an empty page and zero matches. -/
theorem C8_multiword_and_witness :
    (search (builtProcessor exVulns) { exQuery with searchTerm := "cve-2 database" }
        exClock).results = [] ∧
    (search (builtProcessor exVulns) { exQuery with searchTerm := "cve-2 database" }
        exClock).totalCount = 0 :=
  (C8_multiword_and exVulns { exQuery with searchTerm := "cve-2 database" } exClock
    (by decide)).2 "database" (by decide) (by decide)

/-! ## Claim C7 -/

/-- C7: the returned page is the slice
`[page*pageSize, page*pageSize + pageSize)` of the ordered filtered id list;
for a fixed query, concatenating the pages `0, 1, 2, ...` (enough pages to
cover the list) reproduces the whole ordered candidate list with no
duplicates or omissions; and a start index at or past the end yields an
empty page rather than an error. -/
theorem C7_pagination (vulns : List OptimizedVulnerability) (q : Query) (clock : Clock) :
    (search (builtProcessor vulns) q clock).results =
      (((visibleIdsOf (builtProcessor vulns) q).drop (q.page * q.pageSize)).take
        q.pageSize).map (vAt vulns) ∧
    (∀ K : Nat, (visibleIdsOf (builtProcessor vulns) q).length ≤ K * q.pageSize →
      (List.range K).flatMap (fun i =>
          (search (builtProcessor vulns) { q with page := i } clock).results) =
        (visibleIdsOf (builtProcessor vulns) q).map (vAt vulns)) ∧
    ((visibleIdsOf (builtProcessor vulns) q).length ≤ q.page * q.pageSize →
      (search (builtProcessor vulns) q clock).results = []) := by
  refine ⟨rfl, ?_, ?_⟩
  · intro K hK
    have hpage : ∀ i : Nat,
        (search (builtProcessor vulns) { q with page := i } clock).results =
          (((visibleIdsOf (builtProcessor vulns) q).drop (i * q.pageSize)).take
            q.pageSize).map (vAt vulns) := fun i => rfl
    simp only [hpage]
    rw [← List.map_flatMap (vAt vulns)
        (fun i : Nat => ((visibleIdsOf (builtProcessor vulns) q).drop
          (i * q.pageSize)).take q.pageSize)]
    rw [flatMap_pages q.pageSize (visibleIdsOf (builtProcessor vulns) q) K]
    rw [List.take_of_length_le hK]
  · intro hK
    show (((visibleIdsOf (builtProcessor vulns) q).drop (q.page * q.pageSize)).take
      q.pageSize).map (vAt vulns) = []
    rw [List.drop_eq_nil_of_le hK]
    simp

/-- C7 witness: with `pageSize = 1` over the critical-severity candidates,
pages 0 and 1 concatenate to the full candidate list, and page 5 is empty. -/
theorem C7_pagination_witness :
    ((List.range 2).flatMap (fun i =>
        (search (builtProcessor exVulns)
          { exQuery with severityFilter := "critical", pageSize := 1, page := i }
          exClock).results) =
      (visibleIdsOf (builtProcessor exVulns)
        { exQuery with severityFilter := "critical", pageSize := 1 }).map (vAt exVulns)) ∧
    (search (builtProcessor exVulns)
      { exQuery with severityFilter := "critical", pageSize := 1, page := 5 }
      exClock).results = [] :=
  ⟨(C7_pagination exVulns { exQuery with severityFilter := "critical", pageSize := 1 }
      exClock).2.1 2 (by decide),
   (C7_pagination exVulns { exQuery with severityFilter := "critical", pageSize := 1, page := 5 }
      exClock).2.2 (by decide)⟩

/-! ## Claim C6 -/

/-- The fallback branch's positional re-mapping returns the original index
sequence `0 .. n-1` (the sorted copy is consulted only for its positions). -/
theorem fallbackIds_eq_range (st : EngineState) (q : Query) :
    fallbackIds st q = List.range st.vulnerabilities.length := by
  simp only [fallbackIds]
  have hlen : (sortVulnerabilities ((List.range st.vulnerabilities.length).map
      (vAt st.vulnerabilities)) q.sortField q.sortDirection).length =
      st.vulnerabilities.length := by
    unfold sortVulnerabilities
    rw [List.length_insertionSort, List.length_map, List.length_range]
  rw [show (fun p : Nat × OptimizedVulnerability =>
      (List.range st.vulnerabilities.length).getD p.1 0) =
      ((fun i : Nat => (List.range st.vulnerabilities.length).getD i 0) ∘ Prod.fst)
      from rfl]
  rw [← List.map_map, List.enum_map_fst, hlen]
  have h2 : ∀ i ∈ List.range st.vulnerabilities.length,
      (List.range st.vulnerabilities.length).getD i 0 = i := by
    intro i hi
    rw [List.getD_eq_getElem?_getD, List.getElem?_range (List.mem_range.mp hi)]
    rfl
  rw [List.map_congr_left h2]
  simp

/-- C6: `totalCount` equals the brute-force linear-scan count of records
satisfying the term and every active filter — the exact intersection size
before pagination, whatever `page` and `pageSize` are. -/
theorem C6_total_count (vulns : List OptimizedVulnerability) (q : Query) (clock : Clock) :
    (search (builtProcessor vulns) q clock).totalCount =
      (vulns.filter (fun v => bruteMatches v q.searchTerm q.severityFilter
        q.packageFilter q.repoFilter q.kaiStatusFilter)).length := by
  show (visibleIdsOf (builtProcessor vulns) q).length = _
  unfold visibleIdsOf
  have hsorted : List.Perm (sortedIdsOf (builtProcessor vulns) q)
      (List.range vulns.length) := by
    unfold sortedIdsOf
    rw [show (builtProcessor vulns).preSorted q.sortField q.sortDirection =
        preSortedGet vulns q.sortField q.sortDirection from rfl]
    unfold preSortedGet
    by_cases hf : q.sortField ∈ supportedSortFields
    · rw [if_pos hf]
      exact List.perm_insertionSort _ _
    · rw [if_neg hf]
      rw [fallbackIds_eq_range]
      exact List.Perm.refl _
  have hlen := (hsorted.filter (fun id => passesFilters (builtProcessor vulns) id
    q.searchTerm q.severityFilter q.packageFilter q.repoFilter q.kaiStatusFilter)).length_eq
  rw [hlen]
  rw [List.filter_congr (fun i hi => passesFilters_built_eq_brute
    (List.mem_range.mp hi) q.searchTerm q.severityFilter q.packageFilter
    q.repoFilter q.kaiStatusFilter)]
  exact length_filter_range_getD dummyVuln
    (fun v => bruteMatches v q.searchTerm q.severityFilter q.packageFilter
      q.repoFilter q.kaiStatusFilter) vulns

/-! ## Claim C4 -/

/-- For a sort field outside the supported set the `switch` of
`sortVulnerabilities` hits `default: return 0`. -/
theorem svCmp_unknown (a b : OptimizedVulnerability) {field : String}
    (hf : field ∉ supportedSortFields) (dir : SortDir) : svCmp a b field dir = 0 := by
  simp only [supportedSortFields, List.mem_cons, List.not_mem_nil, or_false,
    not_or] at hf
  unfold svCmp
  split <;> simp_all

/-- C4: a query whose (field, direction) pair has no pre-sorted array does
not fail: the returned page and count agree with sorting the candidate set
on the fly under `sortVulnerabilities`'s comparison rules (for an unknown
field those rules rank all records equal, so the stable order is the
candidates' ingestion order). -/
theorem C4_fallback_order (vulns : List OptimizedVulnerability) (q : Query)
    (clock : Clock) (hf : q.sortField ∉ supportedSortFields) :
    (search (builtProcessor vulns) q clock).results =
      ((sortVulnerabilities (((List.range vulns.length).filter (fun id =>
          passesFilters (builtProcessor vulns) id q.searchTerm q.severityFilter
            q.packageFilter q.repoFilter q.kaiStatusFilter)).map (vAt vulns))
          q.sortField q.sortDirection).drop (q.page * q.pageSize)).take q.pageSize ∧
    (search (builtProcessor vulns) q clock).totalCount =
      (((List.range vulns.length).filter (fun id =>
          passesFilters (builtProcessor vulns) id q.searchTerm q.severityFilter
            q.packageFilter q.repoFilter q.kaiStatusFilter)).map (vAt vulns)).length := by
  have hids : sortedIdsOf (builtProcessor vulns) q = List.range vulns.length := by
    unfold sortedIdsOf
    rw [show (builtProcessor vulns).preSorted q.sortField q.sortDirection =
        preSortedGet vulns q.sortField q.sortDirection from rfl]
    unfold preSortedGet
    rw [if_neg hf]
    exact fallbackIds_eq_range _ _
  have hrel : ∀ a b : OptimizedVulnerability,
      svCmp a b q.sortField q.sortDirection ≤ 0 := by
    intro a b
    rw [svCmp_unknown a b hf q.sortDirection]
  have hsort : sortVulnerabilities (((List.range vulns.length).filter (fun id =>
      passesFilters (builtProcessor vulns) id q.searchTerm q.severityFilter
        q.packageFilter q.repoFilter q.kaiStatusFilter)).map (vAt vulns))
      q.sortField q.sortDirection =
      ((List.range vulns.length).filter (fun id =>
        passesFilters (builtProcessor vulns) id q.searchTerm q.severityFilter
          q.packageFilter q.repoFilter q.kaiStatusFilter)).map (vAt vulns) :=
    insertionSort_of_rel_all hrel _
  constructor
  · show (((visibleIdsOf (builtProcessor vulns) q).drop (q.page * q.pageSize)).take
      q.pageSize).map (vAt vulns) = _
    rw [hsort]
    unfold visibleIdsOf
    rw [hids, List.map_take, List.map_drop]
  · show (visibleIdsOf (builtProcessor vulns) q).length = _
    unfold visibleIdsOf
    rw [hids, List.length_map]

/-- C4 witness: sorting by the unknown field `"description"` succeeds and
returns the candidates in the order the comparison rules define. -/
theorem C4_fallback_order_witness :
    (search (builtProcessor exVulns) { exQuery with sortField := "description" }
        exClock).results =
      ((sortVulnerabilities (((List.range exVulns.length).filter (fun id =>
          passesFilters (builtProcessor exVulns) id "" "" "" "" "")).map (vAt exVulns))
          "description" SortDir.desc).drop 0).take 50 ∧
    (search (builtProcessor exVulns) { exQuery with sortField := "description" }
        exClock).totalCount =
      (((List.range exVulns.length).filter (fun id =>
          passesFilters (builtProcessor exVulns) id "" "" "" "" "")).map
        (vAt exVulns)).length :=
  C4_fallback_order exVulns { exQuery with sortField := "description" } exClock
    (by decide)

/-- C5 counterexample: constructing from an array containing a structurally
invalid record raises nothing — the constructor returns a (pre-build) engine
unconditionally; the invalidity only surfaces later, when the deferred build
task fails asynchronously. -/
theorem C5_counterexample :
    constructProcessor [exRawInvalid] =
      Except.ok { vulnerabilities := [exRawInvalid], built := false } ∧
    buildIndexesRaw [exRawInvalid] = Except.error "TypeError" := by
  exact ⟨rfl, rfl⟩

/-- C5 amended: the constructor performs no validation and never raises —
an engine object is produced for every input; a structurally invalid record
(missing a required text field) instead makes the deferred build task fail
with an asynchronous `TypeError`, and a record missing only optional fields
(the dates, or severity) never causes an error. -/
theorem C5_construct_no_validation :
    (∀ vulns : List RawVulnerability, constructProcessor vulns =
      Except.ok { vulnerabilities := vulns, built := false }) ∧
    (∀ (vulns : List RawVulnerability) (v : RawVulnerability), v ∈ vulns →
      (v.cve = none ∨ v.imageName = none ∨ v.repoName = none ∨ v.description = none) →
      buildIndexesRaw vulns = Except.error "TypeError") ∧
    (∀ vulns : List RawVulnerability,
      (∀ v ∈ vulns, v.cve.isSome ∧ v.imageName.isSome ∧ v.repoName.isSome ∧
        v.description.isSome ∧ v.kaiStatus.isSome) →
      buildIndexesRaw vulns = Except.ok ()) := by
  refine ⟨fun _ => rfl, ?_, ?_⟩
  · intro vulns v hv hbad
    unfold buildIndexesRaw
    rw [if_neg]
    intro hcond
    simp only [Bool.and_eq_true] at hcond
    have hvok := List.all_eq_true.mp hcond.1 v hv
    rcases hbad with h | h | h | h <;> simp [h] at hvok
  · intro vulns hok
    unfold buildIndexesRaw
    rw [if_pos]
    simp only [Bool.and_eq_true, Bool.or_eq_true]
    refine ⟨List.all_eq_true.mpr ?_, Or.inr (List.all_eq_true.mpr ?_)⟩
    · intro v hv
      obtain ⟨h1, h2, h3, h4, -⟩ := hok v hv
      simp [h1, h2, h3, h4]
    · intro v hv
      exact (hok v hv).2.2.2.2

/-- C5 witness: a record missing only its date fields builds cleanly, while
the invalid record fails the deferred build (not the constructor). -/
theorem C5_construct_no_validation_witness :
    buildIndexesRaw [exRawMissingDates] = Except.ok () ∧
    buildIndexesRaw [exRawInvalid] = Except.error "TypeError" :=
  ⟨C5_construct_no_validation.2.2 [exRawMissingDates] (by decide),
   C5_construct_no_validation.2.1 [exRawInvalid] exRawInvalid (by decide) (by decide)⟩

/-! ## Claim C3 -/

/-- `jsStrCmp` is non-positive exactly when the first string is not greater. -/
theorem jsStrCmp_nonpos_iff (a b : String) : jsStrCmp a b ≤ 0 ↔ a ≤ b := by
  unfold jsStrCmp
  rcases lt_trichotomy a b with h | h | h
  · rw [if_pos h]
    simp [le_of_lt h]
  · subst h
    simp [lt_irrefl]
  · rw [if_neg (asymm h), if_pos h]
    constructor
    · intro hc; omega
    · intro hc; exact absurd hc (not_le_of_lt h)

/-- A pre-sorted array is stably monotone whenever its comparator induces a
total, transitive relation. -/
theorem stablySorted_preSortedFor {vulns : List OptimizedVulnerability}
    {field : String} {dir : SortDir}
    (total : ∀ a b, preCmp vulns field dir a b ≤ 0 ∨ preCmp vulns field dir b a ≤ 0)
    (trans : ∀ a b c, preCmp vulns field dir a b ≤ 0 → preCmp vulns field dir b c ≤ 0 →
      preCmp vulns field dir a c ≤ 0) :
    stablySorted (preCmp vulns field dir) (preSortedFor vulns field dir) :=
  pairwise_insertionSort_lex (fun a b => preCmp vulns field dir a b ≤ 0) total trans
    (List.range vulns.length) (List.sorted_lt_range _)

/-- A selected date field is parsable at every id when it is parsable on
every record (out-of-range ids read the parsable dummy). -/
theorem timeOf_vAt_isSome {vulns : List OptimizedVulnerability}
    {sel : OptimizedVulnerability → Option String}
    (h : ∀ v ∈ vulns, (timeOf (sel v)).isSome)
    (hdummy : (timeOf (sel dummyVuln)).isSome) (i : Nat) :
    (timeOf (sel (vAt vulns i))).isSome := by
  unfold vAt
  by_cases hi : i < vulns.length
  · rw [List.getD_eq_getElem?_getD, List.getElem?_eq_getElem hi]
    exact h _ (List.getElem_mem hi)
  · rw [List.getD_eq_getElem?_getD, List.getElem?_eq_none (Nat.le_of_not_lt hi)]
    exact hdummy

/-- C3 amended: every pre-sorted array is a permutation of all ids; the
severity orders are stably monotone under the rank comparator and the
`cve`/`kaiStatus` orders under the string comparator; the date orders are
stably monotone under the `getTime()` comparator provided every record's
date parses — an unparsable or missing date yields `NaN`, which the
comparator treats as tied with every element (not as epoch 0). -/
theorem C3_presorted_monotone (vulns : List OptimizedVulnerability) :
    (∀ (field : String) (dir : SortDir),
      List.Perm (preSortedFor vulns field dir) (List.range vulns.length)) ∧
    (∀ dir, stablySorted (preCmp vulns "severity" dir)
      (preSortedFor vulns "severity" dir)) ∧
    (∀ dir, stablySorted (preCmp vulns "cve" dir)
      (preSortedFor vulns "cve" dir)) ∧
    (∀ dir, stablySorted (preCmp vulns "kaiStatus" dir)
      (preSortedFor vulns "kaiStatus" dir)) ∧
    ((∀ v ∈ vulns, (timeOf v.published).isSome) →
      ∀ dir, stablySorted (preCmp vulns "published" dir)
        (preSortedFor vulns "published" dir)) ∧
    ((∀ v ∈ vulns, (timeOf v.fixDate).isSome) →
      ∀ dir, stablySorted (preCmp vulns "fixDate" dir)
        (preSortedFor vulns "fixDate" dir)) := by
  refine ⟨fun field dir => List.perm_insertionSort _ _, ?_, ?_, ?_, ?_, ?_⟩
  · intro dir
    apply stablySorted_preSortedFor
    · intro a b
      cases dir <;> (simp only [preCmp]; omega)
    · intro a b c
      cases dir <;> (simp only [preCmp]; omega)
  · intro dir
    apply stablySorted_preSortedFor
    · intro a b
      cases dir <;>
        (simp only [preCmp]; rw [jsStrCmp_nonpos_iff, jsStrCmp_nonpos_iff]) <;>
        exact le_total _ _
    · intro a b c
      cases dir <;>
        (simp only [preCmp]
         rw [jsStrCmp_nonpos_iff, jsStrCmp_nonpos_iff, jsStrCmp_nonpos_iff]) <;>
        first
        | exact fun h1 h2 => le_trans h1 h2
        | exact fun h1 h2 => le_trans h2 h1
  · intro dir
    apply stablySorted_preSortedFor
    · intro a b
      cases dir <;>
        (simp only [preCmp]; rw [jsStrCmp_nonpos_iff, jsStrCmp_nonpos_iff]) <;>
        exact le_total _ _
    · intro a b c
      cases dir <;>
        (simp only [preCmp]
         rw [jsStrCmp_nonpos_iff, jsStrCmp_nonpos_iff, jsStrCmp_nonpos_iff]) <;>
        first
        | exact fun h1 h2 => le_trans h1 h2
        | exact fun h1 h2 => le_trans h2 h1
  · intro hsome dir
    have hs : ∀ i : Nat, (timeOf (vAt vulns i).published).isSome :=
      timeOf_vAt_isSome hsome (by decide)
    apply stablySorted_preSortedFor
    · intro a b
      obtain ⟨ta, hta⟩ := Option.isSome_iff_exists.mp (hs a)
      obtain ⟨tb, htb⟩ := Option.isSome_iff_exists.mp (hs b)
      cases dir <;> (simp only [preCmp]; rw [hta, htb]; simp only [jsSub]; omega)
    · intro a b c
      obtain ⟨ta, hta⟩ := Option.isSome_iff_exists.mp (hs a)
      obtain ⟨tb, htb⟩ := Option.isSome_iff_exists.mp (hs b)
      obtain ⟨tc, htc⟩ := Option.isSome_iff_exists.mp (hs c)
      cases dir <;> (simp only [preCmp]; rw [hta, htb, htc]; simp only [jsSub]; omega)
  · intro hsome dir
    have hs : ∀ i : Nat, (timeOf (vAt vulns i).fixDate).isSome :=
      timeOf_vAt_isSome hsome (by decide)
    apply stablySorted_preSortedFor
    · intro a b
      obtain ⟨ta, hta⟩ := Option.isSome_iff_exists.mp (hs a)
      obtain ⟨tb, htb⟩ := Option.isSome_iff_exists.mp (hs b)
      cases dir <;> (simp only [preCmp]; rw [hta, htb]; simp only [jsSub]; omega)
    · intro a b c
      obtain ⟨ta, hta⟩ := Option.isSome_iff_exists.mp (hs a)
      obtain ⟨tb, htb⟩ := Option.isSome_iff_exists.mp (hs b)
      obtain ⟨tc, htc⟩ := Option.isSome_iff_exists.mp (hs c)
      cases dir <;> (simp only [preCmp]; rw [hta, htb, htc]; simp only [jsSub]; omega)

/-- C3 witness: on the concrete dataset (all dates parsable) the
published-descending pre-sorted array is stably monotone. -/
theorem C3_presorted_monotone_witness :
    stablySorted (preCmp exVulns "published" SortDir.desc)
      (preSortedFor exVulns "published" SortDir.desc) :=
  (C3_presorted_monotone exVulns).2.2.2.2.1 (by decide) SortDir.desc

/-- C3 counterexample: with a missing published date, the engine's
comparator returns `NaN` (collapsed to a tie), leaving the record in place,
so the published-descending pre-sorted array is not monotone under the
spec's declared epoch-0 comparator. -/
theorem C3_counterexample :
    ¬ stablySorted (specEpochCmpPublishedDesc exVulnsC3)
        (preSortedFor exVulnsC3 "published" SortDir.desc) := by decide
